import Mathlib

/-
Shallow embedding of the neji-finder-tutti-client Python package
(src/neji_finder_tutti_client/main.py and market_controller.py).

The two collaborator libraries (tutti_client, ducts_client) are external
black boxes: every remote call made by the embedded code is recorded as a
trace event, and the response that the remote side would deliver is taken
from an explicit environment record.  The embedded functions thus return a
pair: the Python-level result (an Except, where the error side models a
raised Python exception) together with the ordered list of outbound calls
that were issued before the function finished.
-/

namespace NejiFinder

/-- Model of the Python values that flow through the embedded code:
None, bool, int, str, bytes, list and dict (modelled as an association
list; the embedded code never builds a dict literal with duplicate keys). -/
inductive PyVal : Type where
  | none : PyVal
  | bool : Bool → PyVal
  | int : Int → PyVal
  | str : String → PyVal
  | bytes : List Nat → PyVal
  | list : List PyVal → PyVal
  | dict : List (String × PyVal) → PyVal

/-- Model of the Python exceptions the embedded code can raise.  Messages
are carried verbatim where the source builds them, and approximated for
interpreter-generated exceptions (only the exception kind matters to the
embedded control flow, since the one handler in the source is a bare
except clause). -/
inductive PyErr : Type where
  | exn : String → PyErr
  | keyError : String → PyErr
  | typeError : String → PyErr
  | valueError : String → PyErr
  | nameError : String → PyErr
  | attributeError : String → PyErr
  | unicodeEncodeError : String → PyErr
deriving DecidableEq, Repr

/-- Python truthiness of a value (used by if-tests and the and-operator). -/
def truthy : PyVal → Bool
  | .none => false
  | .bool b => b
  | .int n => n != 0
  | .str s => s != ""
  | .bytes l => !l.isEmpty
  | .list l => !l.isEmpty
  | .dict l => !l.isEmpty

mutual

/-- Python equality (the == operator) restricted to the shapes the embedded
code compares.  The source only ever compares a value against a string
literal, so cross-type comparisons answer false (as in Python) except for
the bool-int identification; container-against-container comparison is
modelled structurally and is not exercised by any embedded code path. -/
def pyEq : PyVal → PyVal → Bool
  | .none, .none => true
  | .bool a, .bool b => a == b
  | .bool a, .int n => (if a then (1 : Int) else 0) == n
  | .int n, .bool a => n == (if a then (1 : Int) else 0)
  | .int a, .int b => a == b
  | .str a, .str b => a == b
  | .bytes a, .bytes b => a == b
  | .list a, .list b => pyEqList a b
  | .dict a, .dict b => pyEqDict a b
  | _, _ => false
termination_by structural a => a

def pyEqList : List PyVal → List PyVal → Bool
  | [], [] => true
  | x :: xs, y :: ys => pyEq x y && pyEqList xs ys
  | _, _ => false
termination_by structural a => a

def pyEqDict : List (String × PyVal) → List (String × PyVal) → Bool
  | [], [] => true
  | (k1, v1) :: xs, (k2, v2) :: ys => k1 == k2 && pyEq v1 v2 && pyEqDict xs ys
  | _, _ => false
termination_by structural a => a

end

/-- Python subscripting v[k] with a string key: returns the dict entry, a
KeyError when the key is absent, and a TypeError when the value is not a
dict (in particular when it is None, as the source can produce). -/
def getItem (v : PyVal) (k : String) : Except PyErr PyVal :=
  match v with
  | .dict l =>
    match l.lookup k with
    | some x => .ok x
    | Option.none => .error (.keyError k)
  | .none => .error (.typeError "NoneType object is not subscriptable")
  | _ => .error (.typeError "object is not subscriptable")

/-- Python str() of a value, as used by str.format.  Faithful on the
scalar shapes the source can feed to format; container shapes are
approximated and unexercised. -/
def pyStr : PyVal → String
  | .str s => s
  | .int n => toString n
  | .bool b => if b then "True" else "False"
  | .none => "None"
  | .bytes _ => "<bytes>"
  | .list _ => "<list>"
  | .dict _ => "<dict>"

/-- Accumulating decimal parser: consumes digit characters only. -/
def parseNatAux : List Char → Nat → Option Nat
  | [], acc => some acc
  | c :: cs, acc =>
    if 48 ≤ c.toNat ∧ c.toNat ≤ 57 then parseNatAux cs (acc * 10 + (c.toNat - 48))
    else Option.none

/-- Nonempty all-digit parse. -/
def parseNat1 : List Char → Option Nat
  | [] => Option.none
  | cs => parseNatAux cs 0

/-- Decimal integer parse of a string with an optional sign, modelling the
base-10 parse done by Python int() on strings (the surrounding-whitespace
and underscore-separator tolerance of int() is not modelled; no embedded
code path feeds it such a string). -/
def strToIntPy (s : String) : Option Int :=
  match s.toList with
  | [] => Option.none
  | '-' :: cs => (parseNat1 cs).map (fun n => -(n : Int))
  | '+' :: cs => (parseNat1 cs).map (fun n => (n : Int))
  | cs => (parseNat1 cs).map (fun n => (n : Int))

/-- Python int(x) on the shapes the source can produce: ints and bools
pass through, strings are parsed as decimal integers (ValueError when the
parse fails), every other shape is a TypeError. -/
def pyIntFn (x : PyVal) : Except PyErr PyVal :=
  match x with
  | .int n => .ok (.int n)
  | .bool b => .ok (.int (if b then 1 else 0))
  | .str s =>
    match strToIntPy s with
    | some n => .ok (.int n)
    | Option.none => .error (.valueError ("invalid literal for int with base 10: " ++ s))
  | _ => .error (.typeError "int argument must be a string or a number")

/-- The int_or_none lambda from main.py line 248:
x is mapped to None when it is None or the empty string, and to int(x)
otherwise. -/
def intOrNone (x : PyVal) : Except PyErr PyVal :=
  match x with
  | .none => .ok .none
  | _ => if pyEq x (.str "") then .ok .none else pyIntFn x

/-- ASCII byte encoding of a Python string, modelling password.encode
with the ascii codec: fails with UnicodeEncodeError on non-ASCII input. -/
def asciiEncode (s : String) : Except PyErr (List Nat) :=
  if s.toList.all (fun c => c.toNat < 128) then
    .ok (s.toList.map Char.toNat)
  else
    .error (.unicodeEncodeError "ascii codec cannot encode character")

/-- One outbound remote call issued by the embedded code.  Duct calls are
tagged with the event name the source looks up in the EVENT table; the two
task-management resource helpers and the works-side sign-in are collaborator
methods recorded with their keyword-argument payloads. -/
inductive Call : Type where
  | ductCall (event : String) (payload : PyVal)
  | createNanotasks (payload : PyVal)
  | createNanotaskGroup (payload : PyVal)
  | worksSignIn (params : PyVal)

/-- Mutable state of a TuttiMarketController instance: the only attribute
beyond the transport handle is access_token, which __init__ does not set
(modelled as an Option that is none while the attribute is missing). -/
structure MarketState : Type where
  access_token : Option PyVal

/-- State of the facade visible to the embedded workflows: the
task-management account_info mapping (read for its access_token) and the
owned market controller state. -/
structure FacadeState : Type where
  account_info : PyVal
  market : MarketState

/-! ## TuttiMarketController (market_controller.py) -/

/-- The SIGN_IN request payload built by TuttiMarketController.sign_in
(market_controller.py lines 54-58).  The SHA-512 primitive lives in the
external hashlib module, so it is a parameter of the embedding; the
payload carries the digest of the ASCII encoding of the password, never
the password itself, in its password_hash field. -/
def marketSignInPayload (sha512 : List Nat → List Nat) (user_id password : String)
    (access_token_lifetime : Int) : Except PyErr PyVal :=
  match asciiEncode password with
  | .error e => .error e
  | .ok bs =>
    .ok (.dict [("user_id", .str user_id),
                ("password_hash", .bytes (sha512 bs)),
                ("access_token_lifetime", .int access_token_lifetime)])

/-- TuttiMarketController.sign_in: builds the SIGN_IN payload, issues the
duct call, and stores data.body.access_token on the controller.  The
response the remote side would deliver is supplied as resp. -/
def marketSignIn (sha512 : List Nat → List Nat) (ms : MarketState)
    (user_id password : String) (access_token_lifetime : Int)
    (resp : Except PyErr PyVal) : Except PyErr MarketState × List Call :=
  match marketSignInPayload sha512 user_id password access_token_lifetime with
  | .error e => (.error e, [])
  | .ok payload =>
    let tr := [Call.ductCall "SIGN_IN" payload]
    match resp with
    | .error e => (.error e, tr)
    | .ok data =>
      match getItem data "body" with
      | .error e => (.error e, tr)
      | .ok body =>
        match getItem body "access_token" with
        | .error e => (.error e, tr)
        | .ok tok => (.ok { ms with access_token := some tok }, tr)

/-- TuttiMarketController.register_job: the payload dict evaluates
self.access_token first, so a controller on which sign_in never completed
raises AttributeError before the REGISTER_JOB duct call is issued. -/
def registerJob (ms : MarketState) (job_class_id job_parameter description
    num_job_assignments_max priority_score : PyVal)
    (resp : Except PyErr PyVal) : Except PyErr PyVal × List Call :=
  match ms.access_token with
  | Option.none =>
    (.error (.attributeError "TuttiMarketController object has no attribute access_token"), [])
  | some tok =>
    let payload := PyVal.dict [("access_token", tok),
                               ("job_class_id", job_class_id),
                               ("job_parameter", job_parameter),
                               ("description", description),
                               ("num_job_assignments_max", num_job_assignments_max),
                               ("priority_score", priority_score)]
    let tr := [Call.ductCall "REGISTER_JOB" payload]
    match resp with
    | .error e => (.error e, tr)
    | .ok data => (.ok data, tr)

/-- TuttiMarketController.sign_out: likewise reads self.access_token while
building the payload, so it raises AttributeError before any call when
sign_in never completed. -/
def marketSignOut (ms : MarketState) (resp : Except PyErr PyVal) :
    Except PyErr PyVal × List Call :=
  match ms.access_token with
  | Option.none =>
    (.error (.attributeError "TuttiMarketController object has no attribute access_token"), [])
  | some tok =>
    let payload := PyVal.dict [("access_token", tok)]
    let tr := [Call.ductCall "SIGN_OUT" payload]
    match resp with
    | .error e => (.error e, tr)
    | .ok _ => (.ok .none, tr)

/-! ## NejiFinderTuttiClient.publish_tasks_to_market (main.py lines 170-269) -/

/-- Sequencing of two effectful computations: when the first raises, the
exception propagates with the calls issued so far; otherwise the second
runs and the call traces concatenate.  This models the ordinary sequential
flow of statements in the Python source. -/
def pstep {α β : Type} (x : Except PyErr α × List Call)
    (f : α → Except PyErr β × List Call) : Except PyErr β × List Call :=
  match x.1 with
  | .error e => (.error e, x.2)
  | .ok a => ((f a).1, x.2 ++ (f a).2)

/-- A pure computation that may raise: no call is issued. -/
def liftExcept {α : Type} (x : Except PyErr α) : Except PyErr α × List Call := (x, [])

/-- A remote call: exactly one call is issued and the environment-supplied
response (or raised transport error) is the result. -/
def callRemote (c : Call) (resp : Except PyErr PyVal) : Except PyErr PyVal × List Call :=
  (resp, [c])

/-- Responses the remote sides would deliver to the calls a single
publish_tasks_to_market run can issue, together with the value of
int(time.time()) observed at line 213.  Each collaborator call may also
raise, hence the Except shape. -/
structure PublishEnv : Type where
  apsGetResp : Except PyErr PyVal
  ppsGetResp : Except PyErr PyVal
  createNanotasksResp : Except PyErr PyVal
  createGroupResp : Except PyErr PyVal
  registerJobResp : Except PyErr PyVal
  time : Nat

/-- Intermediate values carried from the untried part of the workflow
(steps 1-7, main.py lines 185-245) into the try block (lines 247-269). -/
structure PublishCtx : Type where
  pps : PyVal
  ngid : PyVal
  jobParameter : PyVal
  time : Nat

/-- Steps 1-7 of publish_tasks_to_market (main.py lines 185-245): APS
fetch and presence check, PPS fetch and check, platform validation,
nanotask construction and creation, nanotask-group creation, and the
job-parameter build.  None of this is inside the try statement, so every
exception raised here propagates.  The second branch of the PPS presence
check reproduces a defect of the source: the format string at line 207 is
malformed (it reads ID "\x7b\x7d\x7d", a doubled closing brace), so CPython
raises ValueError from str.format before the intended Exception naming the
PPS ID can be constructed. -/
def publishSteps1to7 (st : FacadeState) (env : PublishEnv)
    (automation_parameter_set_id sync_id : String) :
    Except PyErr PublishCtx × List Call :=
  pstep (liftExcept (getItem st.account_info "access_token")) fun tok =>
  pstep (callRemote
          (Call.ductCall "AUTOMATION_PARAMETER_SET_GET"
            (.dict [("automation_parameter_set_id", .str automation_parameter_set_id),
                    ("access_token", tok)]))
          env.apsGetResp) fun data =>
  pstep (liftExcept (if truthy data then getItem data "content" else .ok data)) fun cond =>
  if truthy cond then
    let aps := cond
    pstep (liftExcept (getItem aps "platform_parameter_set_id")) fun ppsIdV =>
    pstep (callRemote
            (Call.ductCall "PLATFORM_PARAMETER_SET_GET"
              (.dict [("platform_parameter_set_id", ppsIdV), ("access_token", tok)]))
            env.ppsGetResp) fun data2 =>
    if truthy data2 then
      pstep (liftExcept (getItem data2 "content")) fun pps =>
      pstep (liftExcept (getItem pps "platform")) fun plat =>
      if pyEq plat (.str "market") then
        let timeStr := toString env.time
        let nanotask := PyVal.dict [("id", .str timeStr),
                                    ("props", .dict [("sync_id", .str sync_id)])]
        pstep (liftExcept (getItem aps "project_name")) fun projName =>
        pstep (callRemote
                (Call.createNanotasks
                  (.dict [("project_name", projName),
                          ("template_name", .str "NejiFinderApp"),
                          ("nanotasks", .list [nanotask]),
                          ("tag", .str ""),
                          ("priority", .int 100),
                          ("num_assignable", .int 0)]))
                env.createNanotasksResp) fun ret =>
        pstep (liftExcept (getItem ret "nanotask_ids")) fun nids =>
        pstep (callRemote
                (Call.createNanotaskGroup
                  (.dict [("name", .str timeStr),
                          ("nanotask_ids", nids),
                          ("project_name", projName),
                          ("template_name", .str "NejiFinderApp")]))
                env.createGroupResp) fun ngid =>
        pstep (liftExcept (getItem aps "platform_parameter_set_id")) fun ppsIdV2 =>
        (.ok ⟨pps, ngid,
              .dict [("nanotask_group_ids", .list [ngid]),
                     ("automation_parameter_set_id", .str automation_parameter_set_id),
                     ("platform_parameter_set_id", ppsIdV2)],
              env.time⟩, [])
      else
        (.error (.exn ("Platform parameter set ID \"" ++ pyStr ppsIdV
                       ++ "\" is not set for market")), [])
    else
      (.error (.valueError "Single \x7d encountered in format string"), [])
  else
    (.error (.exn ("Automation parameter set ID \"" ++ automation_parameter_set_id
                   ++ "\" is not defined")), [])

/-- Body of the try statement in publish_tasks_to_market (main.py lines
248-266): coerce the two PPS parameters with int_or_none (note the source
reads the camel-case key priorityScore at line 255), register the job via
the market controller, check the success flag (the failure branch evaluates the
undefined name Error, so it raises NameError), and produce the job ID from
the body field of the response. -/
def publishTryBody (st : FacadeState) (env : PublishEnv) (ctx : PublishCtx) :
    Except PyErr PyVal × List Call :=
  pstep (liftExcept (getItem ctx.pps "parameters")) fun params =>
  pstep (liftExcept (getItem params "job_class_id")) fun jcid =>
  let descr := PyVal.str ("created at " ++ toString ctx.time)
  pstep (liftExcept (getItem params "num_job_assignments_max")) fun rawMax =>
  pstep (liftExcept (intOrNone rawMax)) fun numMax =>
  pstep (liftExcept (getItem params "priorityScore")) fun rawPrio =>
  pstep (liftExcept (intOrNone rawPrio)) fun prio =>
  pstep (registerJob st.market jcid ctx.jobParameter descr numMax prio
          env.registerJobResp) fun res =>
  pstep (liftExcept (getItem res "success")) fun sv =>
  if truthy sv then
    pstep (liftExcept (getItem res "body")) fun jid => (.ok jid, [])
  else
    (.error (.nameError "name Error is not defined"), [])

/-- publish_tasks_to_market (main.py lines 170-269): run steps 1-7, then
the try block.  An exception inside the try block is swallowed by the bare
except clause at line 267 (only a stack trace is printed) and the method
falls off its end, returning Python None; on success it returns the pair
of the nanotask-group ID and the job ID. -/
def publishTasksToMarket (st : FacadeState) (env : PublishEnv)
    (automation_parameter_set_id sync_id : String) :
    Except PyErr (Option (PyVal × PyVal)) × List Call :=
  match publishSteps1to7 st env automation_parameter_set_id sync_id with
  | (.error e, tr) => (.error e, tr)
  | (.ok ctx, tr) =>
    match publishTryBody st env ctx with
    | (.ok jid, tr2) => (.ok (some (ctx.ngid, jid)), tr ++ tr2)
    | (.error _, tr2) => (.ok Option.none, tr ++ tr2)

/-! ## NejiFinderTuttiClient.sign_in (main.py lines 109-119) -/

/-- Responses for one facade sign_in run: the outcome of the works-side
collaborator sign-in and the response to the market SIGN_IN duct call. -/
structure SignInEnv : Type where
  worksResp : Except PyErr PyVal
  marketResp : Except PyErr PyVal

/-- NejiFinderTuttiClient.sign_in: awaits sign_in_works (which forwards
works_params to the external task-management client, recorded as one
worksSignIn call) and only then awaits sign_in_market (which forwards to
TuttiMarketController.sign_in).  The two awaits are written one after the
other in the source, so the works call completes before the market call is
issued, and a works-side exception propagates before any market call. -/
def facadeSignIn (sha512 : List Nat → List Nat) (st : FacadeState) (env : SignInEnv)
    (works_params : PyVal) (user_id password : String) (access_token_lifetime : Int) :
    Except PyErr FacadeState × List Call :=
  let wtr := [Call.worksSignIn works_params]
  match env.worksResp with
  | .error e => (.error e, wtr)
  | .ok _ =>
    match marketSignIn sha512 st.market user_id password access_token_lifetime
            env.marketResp with
    | (.error e, mtr) => (.error e, wtr ++ mtr)
    | (.ok ms2, mtr) => (.ok { st with market := ms2 }, wtr ++ mtr)

/-! ## NejiFinderTuttiClient.watch_responses_for_tasks (main.py lines 271-304) -/

/-- The keyword arguments of the start-watching send issued by
watch_responses_for_tasks (main.py lines 300-304): the APS ID, the
caller-supplied cursor (default is the plus sentinel), and exclusive set
to True.  The blocking behaviour of the send itself belongs to the
external collaborator and is outside this embedding. -/
def watchRequest (automation_parameter_set_id last_watch_id : String) : PyVal :=
  .dict [("automation_parameter_set_id", .str automation_parameter_set_id),
         ("last_watch_id", .str last_watch_id),
         ("exclusive", .bool true)]

/-! ## Trace predicates -/

/-- Recognises the market SIGN_IN duct call in a trace. -/
def isMarketSignInCall : Call → Bool
  | .ductCall ev _ => ev == "SIGN_IN"
  | _ => false

/-- Recognises a nanotask-creation call (create_nanotasks or
create_nanotask_group) in a trace. -/
def isCreationCall : Call → Bool
  | .createNanotasks _ => true
  | .createNanotaskGroup _ => true
  | _ => false

/-- Recognises the REGISTER_JOB duct call in a trace. -/
def isRegisterJobCall : Call → Bool
  | .ductCall ev _ => ev == "REGISTER_JOB"
  | _ => false

/-- True when some field of a dict-shaped request equals (by Python ==)
the given string. -/
def hasFieldEqStr (v : PyVal) (s : String) : Bool :=
  match v with
  | .dict l => l.any (fun kv => pyEq kv.2 (.str s))
  | _ => false

/-! ## Concrete fixtures for witnesses and counterexamples -/

/-- A facade state in which both sides are signed in: account_info holds a
works access token and the market controller holds an access token. -/
def stOK : FacadeState :=
  ⟨.dict [("access_token", .str "wtok")], ⟨some (.str "mtok")⟩⟩

/-- APS record used by the concrete scenarios: references PPS pps-1 and
project proj. -/
def apsRespOK : Except PyErr PyVal :=
  .ok (.dict [("content", .dict [("platform_parameter_set_id", .str "pps-1"),
                                 ("project_name", .str "proj")])])

/-- PPS response for platform market with the given parameter bag. -/
def ppsRespWith (params : PyVal) : Except PyErr PyVal :=
  .ok (.dict [("content", .dict [("platform", .str "market"),
                                 ("parameters", params)])])

/-- The parameter bag exactly as claim C4 and the spec scenario describe
it: snake-case priority_score. -/
def paramsSnake : PyVal :=
  .dict [("job_class_id", .str "jc1"),
         ("num_job_assignments_max", .str ""),
         ("priority_score", .str "5")]

/-- The parameter bag under the key the source actually reads at main.py
line 255: camel-case priorityScore. -/
def paramsCamel : PyVal :=
  .dict [("job_class_id", .str "jc1"),
         ("num_job_assignments_max", .str ""),
         ("priorityScore", .str "5")]

/-- A fully successful remote environment parametrised by the PPS
parameter bag. -/
def envWith (params : PyVal) : PublishEnv :=
  ⟨apsRespOK,
   ppsRespWith params,
   .ok (.dict [("nanotask_ids", .list [.str "n1"])]),
   .ok (.str "ng1"),
   .ok (.dict [("success", .bool true), ("body", .str "job1")]),
   1700000000⟩

/-- Environment in which the nanotask-creation collaborator call (step 5)
raises. -/
def envNtFail : PublishEnv :=
  { envWith paramsCamel with createNanotasksResp := .error (.exn "boom") }

/-- Environment in which the APS lookup response carries no record. -/
def envApsMissing : PublishEnv :=
  { envWith paramsCamel with apsGetResp := .ok (.dict [("content", .none)]) }

/-- Environment in which the PPS lookup response is present but carries no
record (content is None). -/
def envPpsNoContent : PublishEnv :=
  { envWith paramsCamel with ppsGetResp := .ok (.dict [("content", .none)]) }

/-- Environment in which the PPS lookup response is entirely absent
(falsy), reaching the malformed format string at main.py line 207. -/
def envPpsFalsy : PublishEnv :=
  { envWith paramsCamel with ppsGetResp := .ok .none }

/-- The job_parameter payload built at main.py lines 241-245 in the
concrete success scenario. -/
def jobParamOK : PyVal :=
  .dict [("nanotask_group_ids", .list [.str "ng1"]),
         ("automation_parameter_set_id", .str "aps-1"),
         ("platform_parameter_set_id", .str "pps-1")]

/-- The untried-part context produced by the concrete scenarios, for a
given PPS parameter bag. -/
def ctxWith (params : PyVal) : PublishCtx :=
  ⟨.dict [("platform", .str "market"), ("parameters", params)],
   .str "ng1", jobParamOK, 1700000000⟩

/-- The four outbound calls issued by steps 1-7 in the concrete
scenarios. -/
def trPrefixOK : List Call :=
  [Call.ductCall "AUTOMATION_PARAMETER_SET_GET"
     (.dict [("automation_parameter_set_id", .str "aps-1"), ("access_token", .str "wtok")]),
   Call.ductCall "PLATFORM_PARAMETER_SET_GET"
     (.dict [("platform_parameter_set_id", .str "pps-1"), ("access_token", .str "wtok")]),
   Call.createNanotasks
     (.dict [("project_name", .str "proj"),
             ("template_name", .str "NejiFinderApp"),
             ("nanotasks", .list [.dict [("id", .str "1700000000"),
                                         ("props", .dict [("sync_id", .str "sync-1")])]]),
             ("tag", .str ""),
             ("priority", .int 100),
             ("num_assignable", .int 0)]),
   Call.createNanotaskGroup
     (.dict [("name", .str "1700000000"),
             ("nanotask_ids", .list [.str "n1"]),
             ("project_name", .str "proj"),
             ("template_name", .str "NejiFinderApp")])]

/-- The REGISTER_JOB call issued in the concrete success scenario; its
payload shows the coerced parameters (absent maximum, priority 5). -/
def registerCallOK : Call :=
  Call.ductCall "REGISTER_JOB"
    (.dict [("access_token", .str "mtok"),
            ("job_class_id", .str "jc1"),
            ("job_parameter", jobParamOK),
            ("description", .str "created at 1700000000"),
            ("num_job_assignments_max", PyVal.none),
            ("priority_score", .int 5)])

/-- PPS response whose platform discriminator is not market. -/
def envWrongPlat : PublishEnv :=
  { envWith paramsCamel with
    ppsGetResp := .ok (.dict [("content", .dict [("platform", .str "works"),
                                                 ("parameters", paramsCamel)])]) }

/-- True of an ok lookup response that carries no record: either the
response value itself is falsy, or its content field exists and is falsy.
This is the reading of the spec phrase about an absent record. -/
def respNoRecord (data : PyVal) : Bool :=
  if truthy data then
    match getItem data "content" with
    | .ok c => !truthy c
    | .error _ => false
  else true

/-- Sign-in environment in which the works-side sign-in raises. -/
def envWorksFail : SignInEnv := ⟨.error (.exn "works down"), .ok .none⟩

/-! ## Helper lemmas -/

theorem liftExcept_fst {α : Type} (x : Except PyErr α) : (liftExcept x).1 = x := rfl

theorem callRemote_fst (c : Call) (resp : Except PyErr PyVal) :
    (callRemote c resp).1 = resp := rfl

/-- Inverting a successful pstep on its result component. -/
theorem pstep_fst_ok {α β : Type} {x : Except PyErr α × List Call}
    {f : α → Except PyErr β × List Call} {b : β}
    (h : (pstep x f).1 = .ok b) : ∃ a, x.1 = .ok a ∧ (f a).1 = .ok b := by
  rcases x with ⟨r, tr1⟩
  cases r with
  | error e => simp [pstep] at h
  | ok a => exact ⟨a, rfl, h⟩

/-- register_job only answers ok with the value the remote side delivered
for the REGISTER_JOB call. -/
theorem registerJob_fst_ok (ms : MarketState) (a b c d e : PyVal)
    (resp : Except PyErr PyVal) (res : PyVal)
    (h : (registerJob ms a b c d e resp).1 = .ok res) : resp = .ok res := by
  unfold registerJob at h
  cases hacc : ms.access_token with
  | none => simp [hacc] at h
  | some tok =>
    cases hr : resp with
    | error e2 => simp [hacc, hr] at h
    | ok data => simp [hacc, hr] at h; rw [h]

/-- When steps 1-7 finish without an exception, the nanotask-group ID
carried into the try block is exactly the value the nanotask-group
creation call returned. -/
theorem steps_ok_group_resp (st : FacadeState) (env : PublishEnv) (a s : String)
    (ctx : PublishCtx) (tr : List Call)
    (h : publishSteps1to7 st env a s = (.ok ctx, tr)) :
    env.createGroupResp = .ok ctx.ngid := by
  have h0 : (publishSteps1to7 st env a s).1 = .ok ctx := by rw [h]
  unfold publishSteps1to7 at h0
  obtain ⟨tok, _, h1⟩ := pstep_fst_ok h0
  obtain ⟨data, _, h2⟩ := pstep_fst_ok h1
  obtain ⟨cond, _, h3⟩ := pstep_fst_ok h2
  by_cases hc : truthy cond = true
  · rw [if_pos hc] at h3
    obtain ⟨ppsIdV, _, h4⟩ := pstep_fst_ok h3
    obtain ⟨data2, _, h5⟩ := pstep_fst_ok h4
    by_cases hd2 : truthy data2 = true
    · rw [if_pos hd2] at h5
      obtain ⟨pps, _, h6⟩ := pstep_fst_ok h5
      obtain ⟨plat, _, h7⟩ := pstep_fst_ok h6
      by_cases hpl : pyEq plat (.str "market") = true
      · rw [if_pos hpl] at h7
        obtain ⟨projName, _, h8⟩ := pstep_fst_ok h7
        obtain ⟨ret, _, h9⟩ := pstep_fst_ok h8
        obtain ⟨nids, _, h10⟩ := pstep_fst_ok h9
        obtain ⟨ngid, hng, h11⟩ := pstep_fst_ok h10
        obtain ⟨ppsIdV2, _, h12⟩ := pstep_fst_ok h11
        rw [callRemote_fst] at hng
        simp at h12
        rw [hng, ← h12]
      · rw [if_neg hpl] at h7; simp at h7
    · rw [if_neg hd2] at h5; simp at h5
  · rw [if_neg hc] at h3; simp at h3

/-- When the try block finishes without an exception, the job ID it
produces is the body field of a register_job response whose success flag
is truthy. -/
theorem tryBody_ok_register (st : FacadeState) (env : PublishEnv) (ctx : PublishCtx)
    (jid : PyVal) (tr : List Call)
    (h : publishTryBody st env ctx = (.ok jid, tr)) :
    ∃ res sv, env.registerJobResp = .ok res ∧ getItem res "success" = .ok sv ∧
      truthy sv = true ∧ getItem res "body" = .ok jid := by
  have h0 : (publishTryBody st env ctx).1 = .ok jid := by rw [h]
  unfold publishTryBody at h0
  obtain ⟨params, _, h1⟩ := pstep_fst_ok h0
  obtain ⟨jcid, _, h2⟩ := pstep_fst_ok h1
  obtain ⟨rawMax, _, h3⟩ := pstep_fst_ok h2
  obtain ⟨numMax, _, h4⟩ := pstep_fst_ok h3
  obtain ⟨rawPrio, _, h5⟩ := pstep_fst_ok h4
  obtain ⟨prio, _, h6⟩ := pstep_fst_ok h5
  obtain ⟨res, hres, h7⟩ := pstep_fst_ok h6
  obtain ⟨sv, hsv, h8⟩ := pstep_fst_ok h7
  rw [liftExcept_fst] at hsv
  by_cases hv : truthy sv = true
  · rw [if_pos hv] at h8
    obtain ⟨jid0, hb, h9⟩ := pstep_fst_ok h8
    rw [liftExcept_fst] at hb
    simp at h9
    exact ⟨res, sv, registerJob_fst_ok _ _ _ _ _ _ _ _ hres, hsv, hv, h9 ▸ hb⟩
  · rw [if_neg hv] at h8; simp at h8

/-- Every call the market controller sign_in issues is the SIGN_IN duct
call. -/
theorem marketSignIn_trace_sign_in_only (sha512 : List Nat → List Nat)
    (ms : MarketState) (uid pw : String) (lt : Int) (resp : Except PyErr PyVal) :
    ∀ c ∈ (marketSignIn sha512 ms uid pw lt resp).2, isMarketSignInCall c = true := by
  intro c hc
  unfold marketSignIn at hc
  repeat' split at hc
  all_goals simp_all [isMarketSignInCall]

/-! ## Claim theorems -/

/-- Claim C1, counterexample: an exception raised in step 5 (the
nanotask-creation collaborator call) is NOT caught by
publish_tasks_to_market: it propagates to the caller instead of being
logged, because the try statement only begins at the register_job step. -/
theorem publish_nanotask_creation_exception_propagates :
    (publishTasksToMarket stOK envNtFail "aps-1" "sync-1").1 = .error (.exn "boom") ∧
    (publishTasksToMarket stOK envNtFail "aps-1" "sync-1").1 ≠ .ok Option.none := by
  constructor
  · rfl
  · intro hcon
    have h0 : (publishTasksToMarket stOK envNtFail "aps-1" "sync-1").1 =
        .error (.exn "boom") := rfl
    rw [h0] at hcon
    exact Except.noConfusion hcon

/-- Claim C1, amended: only exceptions raised inside the try statement
(main.py lines 247-269: the parameter coercion, the register_job call and
the success check) are caught and merely logged, after which the method
returns None; an exception raised in steps 4-7 (nanotask construction and
creation, nanotask-group creation, job-parameter build) propagates, so any
exception escaping publish_tasks_to_market comes from the untried part. -/
theorem publish_swallows_only_try_block_exceptions :
    (∀ (st : FacadeState) (env : PublishEnv) (a s : String) (ctx : PublishCtx)
       (tr1 : List Call) (e : PyErr) (tr2 : List Call),
      publishSteps1to7 st env a s = (.ok ctx, tr1) →
      publishTryBody st env ctx = (.error e, tr2) →
      publishTasksToMarket st env a s = (.ok Option.none, tr1 ++ tr2)) ∧
    (∀ (st : FacadeState) (env : PublishEnv) (a s : String) (e : PyErr) (tr : List Call),
      publishTasksToMarket st env a s = (.error e, tr) →
      publishSteps1to7 st env a s = (.error e, tr)) := by
  constructor
  · intro st env a s ctx tr1 e tr2 h1 h2
    simp only [publishTasksToMarket, h1, h2]
  · intro st env a s e tr h
    unfold publishTasksToMarket at h
    cases hs : publishSteps1to7 st env a s with
    | mk r tr1 =>
      rw [hs] at h
      cases r with
      | error e2 =>
        simp only [Prod.mk.injEq, Except.error.injEq] at h
        rw [h.1, h.2]
      | ok ctx =>
        simp only [] at h
        split at h <;> simp at h

/-- Claim C1, witness: with the snake-case parameter bag the try block
raises KeyError, which is swallowed and turned into a None return; with a
record-less APS response the exception escaping the method is exactly the
one produced by the untried steps. -/
theorem publish_swallows_only_try_block_exceptions_witness :
    publishTasksToMarket stOK (envWith paramsSnake) "aps-1" "sync-1" =
      (.ok Option.none, trPrefixOK ++ []) ∧
    publishSteps1to7 stOK envApsMissing "aps-1" "sync-1" =
      (.error (.exn "Automation parameter set ID \"aps-1\" is not defined"),
       [Call.ductCall "AUTOMATION_PARAMETER_SET_GET"
          (.dict [("automation_parameter_set_id", .str "aps-1"),
                  ("access_token", .str "wtok")])]) :=
  ⟨publish_swallows_only_try_block_exceptions.1 stOK (envWith paramsSnake) "aps-1" "sync-1"
     (ctxWith paramsSnake) trPrefixOK (.keyError "priorityScore") [] rfl rfl,
   publish_swallows_only_try_block_exceptions.2 stOK envApsMissing "aps-1" "sync-1"
     (.exn "Automation parameter set ID \"aps-1\" is not defined")
     [Call.ductCall "AUTOMATION_PARAMETER_SET_GET"
        (.dict [("automation_parameter_set_id", .str "aps-1"),
                ("access_token", .str "wtok")])] rfl⟩

/-- Claim C2: whenever steps 1-7 and the try block both finish without an
exception, publish_tasks_to_market returns exactly the pair of the
nanotask-group ID and the job ID, where the nanotask-group ID is the value
returned by the nanotask-group creation call and the job ID is the body
field of a register_job response whose success flag is truthy. -/
theorem publish_success_returns_group_and_job_ids
    (st : FacadeState) (env : PublishEnv) (a s : String) (ctx : PublishCtx)
    (tr1 : List Call) (jid : PyVal) (tr2 : List Call)
    (h1 : publishSteps1to7 st env a s = (.ok ctx, tr1))
    (h2 : publishTryBody st env ctx = (.ok jid, tr2)) :
    publishTasksToMarket st env a s = (.ok (some (ctx.ngid, jid)), tr1 ++ tr2) ∧
    env.createGroupResp = .ok ctx.ngid ∧
    ∃ res sv, env.registerJobResp = .ok res ∧ getItem res "success" = .ok sv ∧
      truthy sv = true ∧ getItem res "body" = .ok jid := by
  refine ⟨?_, steps_ok_group_resp st env a s ctx tr1 h1,
          tryBody_ok_register st env ctx jid tr2 h2⟩
  simp only [publishTasksToMarket, h1, h2]

/-- Claim C2, witness: the concrete success scenario returns the pair of
the created nanotask-group ID ng1 and the job ID job1 delivered as the
body of the success-true register_job response. -/
theorem publish_success_returns_group_and_job_ids_witness :
    publishTasksToMarket stOK (envWith paramsCamel) "aps-1" "sync-1" =
      (.ok (some ((ctxWith paramsCamel).ngid, .str "job1")), trPrefixOK ++ [registerCallOK]) ∧
    (envWith paramsCamel).createGroupResp = .ok (ctxWith paramsCamel).ngid ∧
    ∃ res sv, (envWith paramsCamel).registerJobResp = .ok res ∧
      getItem res "success" = .ok sv ∧ truthy sv = true ∧
      getItem res "body" = .ok (.str "job1") :=
  publish_success_returns_group_and_job_ids stOK (envWith paramsCamel) "aps-1" "sync-1"
    (ctxWith paramsCamel) trPrefixOK (.str "job1") [registerCallOK] rfl rfl

/-- Claim C3: when the PLATFORM_PARAMETER_SET_GET response is present but
carries no record (content None), publish_tasks_to_market does not fail
with a lookup error naming the PPS ID; it proceeds to the platform check
and raises TypeError there.  When the response itself is falsy, the
malformed format string at main.py line 207 makes CPython raise ValueError
before the intended lookup error can even be built.  In both cases no
nanotask-creation call has been issued. -/
theorem publish_pps_absent_raises_wrong_error :
    publishTasksToMarket stOK envPpsNoContent "aps-1" "sync-1" =
      (.error (.typeError "NoneType object is not subscriptable"),
       [Call.ductCall "AUTOMATION_PARAMETER_SET_GET"
          (.dict [("automation_parameter_set_id", .str "aps-1"),
                  ("access_token", .str "wtok")]),
        Call.ductCall "PLATFORM_PARAMETER_SET_GET"
          (.dict [("platform_parameter_set_id", .str "pps-1"),
                  ("access_token", .str "wtok")])]) ∧
    publishTasksToMarket stOK envPpsFalsy "aps-1" "sync-1" =
      (.error (.valueError "Single \x7d encountered in format string"),
       [Call.ductCall "AUTOMATION_PARAMETER_SET_GET"
          (.dict [("automation_parameter_set_id", .str "aps-1"),
                  ("access_token", .str "wtok")]),
        Call.ductCall "PLATFORM_PARAMETER_SET_GET"
          (.dict [("platform_parameter_set_id", .str "pps-1"),
                  ("access_token", .str "wtok")])]) ∧
    ((publishTasksToMarket stOK envPpsNoContent "aps-1" "sync-1").2.filter isCreationCall) = [] ∧
    ((publishTasksToMarket stOK envPpsFalsy "aps-1" "sync-1").2.filter isCreationCall) = [] :=
  ⟨rfl, rfl, rfl, rfl⟩

/-- Claim C4, counterexample: with the parameter bag spelled exactly as the
claim states it (snake-case priority_score), the code raises KeyError while
reading the camel-case key priorityScore, the bare except swallows it, the
method returns None, and no REGISTER_JOB call is issued at all. -/
theorem publish_snake_case_priority_bag_registers_nothing :
    (publishTasksToMarket stOK (envWith paramsSnake) "aps-1" "sync-1").1 = .ok Option.none ∧
    ((publishTasksToMarket stOK (envWith paramsSnake) "aps-1" "sync-1").2.filter
      isRegisterJobCall) = [] :=
  ⟨rfl, rfl⟩

/-- Claim C4, amended: with the parameter bag keyed the way the source
reads it (priorityScore), publishing registers a job whose
num_job_assignments_max is None (coerced from the empty string) and whose
priority_score is the integer 5 (coerced from the string 5). -/
theorem publish_camel_case_priority_bag_scenario :
    (publishTasksToMarket stOK (envWith paramsCamel) "aps-1" "sync-1").1 =
      .ok (some (.str "ng1", .str "job1")) ∧
    ((publishTasksToMarket stOK (envWith paramsCamel) "aps-1" "sync-1").2.filter
      isRegisterJobCall) =
      [Call.ductCall "REGISTER_JOB"
        (.dict [("access_token", .str "mtok"),
                ("job_class_id", .str "jc1"),
                ("job_parameter", jobParamOK),
                ("description", .str "created at 1700000000"),
                ("num_job_assignments_max", PyVal.none),
                ("priority_score", .int 5)])] :=
  ⟨rfl, rfl⟩

/-- Claim C5: when the fetched PPS record has a platform discriminator
other than market, publish_tasks_to_market raises an exception whose
message names the platform_parameter_set_id, and the only calls issued
before that failure are the two parameter-set fetches: no
nanotask-creation call happens. -/
theorem publish_platform_mismatch_fails_before_creation
    (st : FacadeState) (env : PublishEnv) (a s : String)
    (tok data aps data2 pps plat : PyVal) (ppsId : String)
    (htok : getItem st.account_info "access_token" = .ok tok)
    (hresp : env.apsGetResp = .ok data)
    (hd : truthy data = true)
    (hcon : getItem data "content" = .ok aps)
    (ha : truthy aps = true)
    (hpid : getItem aps "platform_parameter_set_id" = .ok (.str ppsId))
    (hresp2 : env.ppsGetResp = .ok data2)
    (hd2 : truthy data2 = true)
    (hcon2 : getItem data2 "content" = .ok pps)
    (hplat : getItem pps "platform" = .ok plat)
    (hne : pyEq plat (.str "market") = false) :
    publishTasksToMarket st env a s =
      (.error (.exn ("Platform parameter set ID \"" ++ ppsId ++ "\" is not set for market")),
       [Call.ductCall "AUTOMATION_PARAMETER_SET_GET"
          (.dict [("automation_parameter_set_id", .str a), ("access_token", tok)]),
        Call.ductCall "PLATFORM_PARAMETER_SET_GET"
          (.dict [("platform_parameter_set_id", .str ppsId), ("access_token", tok)])]) ∧
    ((publishTasksToMarket st env a s).2.filter isCreationCall) = [] := by
  have key : publishTasksToMarket st env a s =
      (.error (.exn ("Platform parameter set ID \"" ++ ppsId ++ "\" is not set for market")),
       [Call.ductCall "AUTOMATION_PARAMETER_SET_GET"
          (.dict [("automation_parameter_set_id", .str a), ("access_token", tok)]),
        Call.ductCall "PLATFORM_PARAMETER_SET_GET"
          (.dict [("platform_parameter_set_id", .str ppsId), ("access_token", tok)])]) := by
    simp [publishTasksToMarket, publishSteps1to7, pstep, liftExcept, callRemote, pyStr,
          htok, hresp, hd, hcon, ha, hpid, hresp2, hd2, hcon2, hplat, hne]
  refine ⟨key, ?_⟩
  rw [key]
  rfl

/-- Claim C5, witness: a PPS record for platform works makes the concrete
publish run fail with the validation message naming pps-1 and with no
creation call issued. -/
theorem publish_platform_mismatch_fails_before_creation_witness :
    publishTasksToMarket stOK envWrongPlat "aps-1" "sync-1" =
      (.error (.exn ("Platform parameter set ID \"" ++ "pps-1" ++ "\" is not set for market")),
       [Call.ductCall "AUTOMATION_PARAMETER_SET_GET"
          (.dict [("automation_parameter_set_id", .str "aps-1"),
                  ("access_token", .str "wtok")]),
        Call.ductCall "PLATFORM_PARAMETER_SET_GET"
          (.dict [("platform_parameter_set_id", .str "pps-1"),
                  ("access_token", .str "wtok")])]) ∧
    ((publishTasksToMarket stOK envWrongPlat "aps-1" "sync-1").2.filter isCreationCall) = [] :=
  publish_platform_mismatch_fails_before_creation stOK envWrongPlat "aps-1" "sync-1"
    (.str "wtok")
    (.dict [("content", .dict [("platform_parameter_set_id", .str "pps-1"),
                               ("project_name", .str "proj")])])
    (.dict [("platform_parameter_set_id", .str "pps-1"), ("project_name", .str "proj")])
    (.dict [("content", .dict [("platform", .str "works"), ("parameters", paramsCamel)])])
    (.dict [("platform", .str "works"), ("parameters", paramsCamel)])
    (.str "works") "pps-1"
    rfl rfl rfl rfl rfl rfl rfl rfl rfl rfl rfl

/-- Claim C6: when the AUTOMATION_PARAMETER_SET_GET response carries no
record, publish_tasks_to_market raises an exception whose message names
the requested automation_parameter_set_id, the only call issued is that
fetch, and in particular no nanotask-creation call happens. -/
theorem publish_missing_aps_fails_with_lookup_error
    (st : FacadeState) (env : PublishEnv) (a s : String) (tok data : PyVal)
    (htok : getItem st.account_info "access_token" = .ok tok)
    (hresp : env.apsGetResp = .ok data)
    (hnr : respNoRecord data = true) :
    publishTasksToMarket st env a s =
      (.error (.exn ("Automation parameter set ID \"" ++ a ++ "\" is not defined")),
       [Call.ductCall "AUTOMATION_PARAMETER_SET_GET"
          (.dict [("automation_parameter_set_id", .str a), ("access_token", tok)])]) ∧
    ((publishTasksToMarket st env a s).2.filter isCreationCall) = [] := by
  have key : publishTasksToMarket st env a s =
      (.error (.exn ("Automation parameter set ID \"" ++ a ++ "\" is not defined")),
       [Call.ductCall "AUTOMATION_PARAMETER_SET_GET"
          (.dict [("automation_parameter_set_id", .str a), ("access_token", tok)])]) := by
    unfold respNoRecord at hnr
    by_cases hd : truthy data = true
    · rw [if_pos hd] at hnr
      cases hcon : getItem data "content" with
      | error e => rw [hcon] at hnr; simp at hnr
      | ok c =>
        rw [hcon] at hnr
        simp at hnr
        simp [publishTasksToMarket, publishSteps1to7, pstep, liftExcept, callRemote,
              htok, hresp, hd, hcon, hnr]
    · simp only [Bool.not_eq_true] at hd
      simp [publishTasksToMarket, publishSteps1to7, pstep, liftExcept, callRemote,
            htok, hresp, hd]
  refine ⟨key, ?_⟩
  rw [key]
  rfl

/-- Claim C6, witness: a content-less APS response makes the concrete
publish run fail with the lookup message naming aps-1, with only the
fetch call issued. -/
theorem publish_missing_aps_fails_with_lookup_error_witness :
    publishTasksToMarket stOK envApsMissing "aps-1" "sync-1" =
      (.error (.exn ("Automation parameter set ID \"" ++ "aps-1" ++ "\" is not defined")),
       [Call.ductCall "AUTOMATION_PARAMETER_SET_GET"
          (.dict [("automation_parameter_set_id", .str "aps-1"),
                  ("access_token", .str "wtok")])]) ∧
    ((publishTasksToMarket stOK envApsMissing "aps-1" "sync-1").2.filter isCreationCall) = [] :=
  publish_missing_aps_fails_with_lookup_error stOK envApsMissing "aps-1" "sync-1"
    (.str "wtok") (.dict [("content", .none)]) rfl rfl rfl

/-- Claim C8: sign_in issues the works-side sign-in first (it is the head
of the call trace), every later call is the market SIGN_IN duct call, and
when the works-side sign-in raises, the whole method raises that error
with the works call as the only call issued, so the market sign-in never
starts. -/
theorem facade_sign_in_works_strictly_before_market
    (sha512 : List Nat → List Nat) (st : FacadeState) (env : SignInEnv)
    (wp : PyVal) (uid pw : String) (lt : Int) :
    ((facadeSignIn sha512 st env wp uid pw lt).2.head? = some (Call.worksSignIn wp)) ∧
    (∀ c ∈ (facadeSignIn sha512 st env wp uid pw lt).2.tail, isMarketSignInCall c = true) ∧
    (∀ e, env.worksResp = .error e →
      facadeSignIn sha512 st env wp uid pw lt = (.error e, [Call.worksSignIn wp])) := by
  unfold facadeSignIn
  cases hw : env.worksResp with
  | error e =>
    refine ⟨rfl, ?_, ?_⟩
    · intro c hc; simp at hc
    · intro e2 he2
      injection he2 with h3
      subst h3
      rfl
  | ok v =>
    cases hm : marketSignIn sha512 st.market uid pw lt env.marketResp with
    | mk r mtr =>
      have hmtr : ∀ c ∈ mtr, isMarketSignInCall c = true := by
        intro c hc
        have := marketSignIn_trace_sign_in_only sha512 st.market uid pw lt env.marketResp c
        rw [hm] at this
        exact this hc
      refine ⟨?_, ?_, ?_⟩
      · cases r <;> simp
      · intro c hc
        apply hmtr
        cases r <;> simpa using hc
      · intro e2 he2
        exact Except.noConfusion he2

/-- Claim C8, witness: when the works sign-in raises, sign_in propagates
that error after issuing only the works call. -/
theorem facade_sign_in_works_strictly_before_market_witness :
    facadeSignIn (fun bs => bs) stOK envWorksFail (.dict []) "u" "p" 1000 =
      (.error (.exn "works down"), [Call.worksSignIn (.dict [])]) :=
  (facade_sign_in_works_strictly_before_market (fun bs => bs) stOK envWorksFail
    (.dict []) "u" "p" 1000).2.2 (.exn "works down") rfl

/-- Claim C9, counterexample: the claim quantifies over every user_id and
password; when the caller passes the same string for both, the user_id
field of the outbound SIGN_IN request equals the plaintext password. -/
theorem market_sign_in_request_can_contain_password :
    marketSignInPayload (fun bs => bs) "s3cret" "s3cret" 1000 =
      .ok (.dict [("user_id", .str "s3cret"),
                  ("password_hash", .bytes [115, 51, 99, 114, 101, 116]),
                  ("access_token_lifetime", .int 1000)]) ∧
    hasFieldEqStr (.dict [("user_id", .str "s3cret"),
                          ("password_hash", .bytes [115, 51, 99, 114, 101, 116]),
                          ("access_token_lifetime", .int 1000)]) "s3cret" = true :=
  ⟨rfl, rfl⟩

/-- Claim C9, amended: the outbound SIGN_IN request carries the SHA-512
digest of the byte encoding of the password in its password_hash field,
and no field of the request equals the plaintext password unless the
caller passes the password string as the user_id. -/
theorem market_sign_in_hashes_password
    (sha512 : List Nat → List Nat) (uid pw : String) (lt : Int) (bs : List Nat)
    (henc : asciiEncode pw = .ok bs) (hne : uid ≠ pw) :
    marketSignInPayload sha512 uid pw lt =
      .ok (.dict [("user_id", .str uid),
                  ("password_hash", .bytes (sha512 bs)),
                  ("access_token_lifetime", .int lt)]) ∧
    hasFieldEqStr (.dict [("user_id", .str uid),
                          ("password_hash", .bytes (sha512 bs)),
                          ("access_token_lifetime", .int lt)]) pw = false := by
  constructor
  · unfold marketSignInPayload
    rw [henc]
  · simp [hasFieldEqStr, pyEq, hne]

/-- Claim C9, witness: for distinct user u1 and ASCII password pw the
request carries the digest of the encoded password and no field equal to
the plaintext. -/
theorem market_sign_in_hashes_password_witness :
    marketSignInPayload (fun bs => bs) "u1" "pw" 1000 =
      .ok (.dict [("user_id", .str "u1"),
                  ("password_hash", .bytes [112, 119]),
                  ("access_token_lifetime", .int 1000)]) ∧
    hasFieldEqStr (.dict [("user_id", .str "u1"),
                          ("password_hash", .bytes [112, 119]),
                          ("access_token_lifetime", .int 1000)]) "pw" = false :=
  market_sign_in_hashes_password (fun bs => bs) "u1" "pw" 1000 [112, 119] rfl (by decide)

/-- Claim C10: on a controller whose access_token attribute was never set
(sign_in never completed), register_job and sign_out raise AttributeError
while building their payloads and issue no outbound call at all. -/
theorem market_calls_before_sign_in_fail_locally
    (jc jp d nm ps : PyVal) (r1 r2 : Except PyErr PyVal) :
    registerJob ⟨Option.none⟩ jc jp d nm ps r1 =
      (.error (.attributeError "TuttiMarketController object has no attribute access_token"),
       []) ∧
    marketSignOut ⟨Option.none⟩ r2 =
      (.error (.attributeError "TuttiMarketController object has no attribute access_token"),
       []) :=
  ⟨rfl, rfl⟩

end NejiFinder
